import Mathlib

/-
  Verification development for the wacom-ble-downloader repository.

  The JavaScript sources are shallowly embedded: byte sequences are
  `List Nat` (each element a byte value 0..255), JavaScript numbers used as
  signed integers become `Int`, fallible operations return `Except String`.
  An out-of-range JavaScript array read yields `undefined`; every site in the
  embedded code either guards the read or coerces `undefined` with a bitwise
  operation (`| 0`, `& c`, comparison with a non-zero byte constant), all of
  which behave as the byte value 0 would, so reads are modelled with a
  default of 0 (`byteAt`).

  The repository ships several historical variants of the same modules,
  separated by document markers.  The namespaces below distinguish them:
  `StrokeParser`        - src/lib/stroke-parser.js, first (current) StrokeParser
  `StrokeParserProto`   - src/lib/protocol.js, embedded StrokeParser variant
  `WacomProtocol`       - src/lib/protocol.js, class WacomProtocol
  `WacomBLE`            - src/unnamed/part_005, class WacomBLE
  `SmartPadDecompressor`- src/lib/stroke-parser.js, class SmartPadDecompressor
  `SVGConverter`        - src/lib/stroke-parser.js, first SVGConverter variant
-/

namespace Wacom

/-- JavaScript array read `data[i]`; out-of-range reads are only ever used in
contexts where `undefined` coerces to 0 or fails an equality test against a
non-zero byte, so the default 0 is observationally faithful for byte inputs. -/
def byteAt (data : List Nat) (i : Nat) : Nat := data.getD i 0

/-- `countBits` from the stroke parsers: number of set bits in the low 8 bits. -/
def countBits (b : Nat) : Nat :=
  (List.range 8).foldl (fun acc i => if b &&& (1 <<< i) != 0 then acc + 1 else acc) 0

/-- JavaScript `(b << 24) >> 24`: sign extension of the low 8 bits. -/
def signExtend8 (b : Nat) : Int :=
  if b % 256 < 128 then ((b % 256 : Nat) : Int) else ((b % 256 : Nat) : Int) - 256

/-- JavaScript `Number.prototype.toString(16)` for a natural number
(lower-case hex digits, as produced for the protocol error messages). -/
def jsHex (n : Nat) : String := (Nat.toDigits 16 n).asString

/-- Elementwise comparison of a character list against the leading characters
of another (helper for the substring test below). -/
def charsLeading : List Char → List Char → Bool
  | [], _ => true
  | _ :: _, [] => false
  | a :: as, b :: bs => a == b && charsLeading as bs

/-- Whether `needle` occurs as a contiguous run inside `hay`. -/
def charsFind : List Char → List Char → Bool
  | needle, [] => charsLeading needle []
  | needle, b :: rest => charsLeading needle (b :: rest) || charsFind needle rest

/-- JavaScript `hay.includes(needle)` on strings: case-sensitive substring
test, exactly as used by `deleteOldestFile`'s catch clause. -/
def jsIncludes (hay needle : String) : Bool := charsFind needle.toList hay.toList

/-- A decoded point in raw device units (`x`, `y`, `p` before scaling). -/
structure RawPoint where
  x : Int
  y : Int
  p : Int
deriving DecidableEq, Repr

/-- A decoded point as stored in a stroke: `x`, `y` in micrometers
(device units times `pointSize`), `p` normalized into the 0x10000 range. -/
structure Point where
  x : Int
  y : Int
  p : Int
deriving DecidableEq, Repr

/-- Packet classification returned by `identifyPacketType` (the source uses
string literals; a closed inductive is the natural embedding). -/
inductive PacketType
  | UNKNOWN
  | FILE_HEADER
  | EOF
  | STROKE_END
  | LOST_POINT
  | DELTA
  | STROKE_HEADER
  | POINT
deriving DecidableEq, Repr

/-- Result of `parsePoint`: per-axis absolute value or signed delta, each
possibly absent (`undefined` in the source). -/
structure PointResult where
  x : Option Int
  y : Option Int
  p : Option Int
  dx : Option Int
  dy : Option Int
  dp : Option Int
deriving DecidableEq, Repr

/-- Loop state of `parseStrokes`: completed strokes, the stroke being built,
the running absolute baseline and the running cumulative delta. -/
structure PState where
  strokes : List (List Point)
  current : List Point
  lastPoint : RawPoint
  lastDelta : RawPoint
deriving DecidableEq, Repr

/-- Outcome of one iteration of the `parseStrokes` while loop: either the
loop breaks returning the finished strokes (`EOF`), or it consumes a number
of bytes and continues with an updated state. -/
inductive StepResult
  | done : List (List Point) → StepResult
  | next : Nat → PState → StepResult
deriving DecidableEq, Repr

namespace StrokeParser

/-- Device pressure range (constructor of StrokeParser). -/
def pressure : Int := 1023

/-- Device unit scale in micrometers (constructor of StrokeParser). -/
def pointSize : Int := 10

/-- `identifyPacketType` of the current StrokeParser (stroke-parser.js):
classification driven by the header byte's popcount-sized payload. -/
def identifyPacketType (data : List Nat) : PacketType :=
  if data.length < 1 then .UNKNOWN
  else
    let header := byteAt data 0
    let payloadLength := countBits header
    let payload := (data.drop 1).take payloadLength
    if 4 ≤ data.length ∧
        (data.take 4 = [0x62, 0x38, 0x62, 0x74] ∨ data.take 4 = [0x67, 0x82, 0x69, 0x65]) then
      .FILE_HEADER
    else if 8 ≤ payload.length ∧ payload.take 8 = List.replicate 8 0xff then
      .EOF
    else if 7 ≤ data.length ∧ byteAt data 0 = 0xfc ∧
        (data.drop 1).take 6 = List.replicate 6 0xff then
      .STROKE_END
    else if 2 ≤ payload.length ∧ payload.getD 0 0 = 0xdd ∧ payload.getD 1 0 = 0xdd then
      .LOST_POINT
    else if header &&& 0x03 = 0 then
      .DELTA
    else if 0 < payload.length ∧ payload.getD 0 0 = 0xfa then
      .STROKE_HEADER
    else if 3 ≤ payload.length ∧ payload.getD 0 0 = 0xff ∧ payload.getD 1 0 = 0xee ∧
        payload.getD 2 0 = 0xee then
      .STROKE_HEADER
    else if 2 ≤ payload.length ∧ payload.getD 0 0 = 0xff ∧ payload.getD 1 0 = 0xff then
      .POINT
    else
      .UNKNOWN

/-- `getMaskSize`: bytes occupied by one axis given its 2-bit mask. -/
def getMaskSize (mask : Nat) : Nat :=
  if mask = 0 then 0 else if mask = 2 then 1 else if mask = 3 then 2 else 0

/-- `getPointSize` of the current StrokeParser. -/
def getPointSize (data : List Nat) : Nat :=
  if byteAt data 1 = 0xff ∧ byteAt data 2 = 0xff then
    let header := byteAt data 0 &&& 0xfc
    3 + getMaskSize ((header &&& 0x0c) >>> 2) + getMaskSize ((header &&& 0x30) >>> 4) +
      getMaskSize ((header &&& 0xc0) >>> 6)
  else
    let header := byteAt data 0
    1 + getMaskSize ((header &&& 0x0c) >>> 2) + getMaskSize ((header &&& 0x30) >>> 4) +
      getMaskSize ((header &&& 0xc0) >>> 6)

/-- `getStrokeEndSize`. -/
def getStrokeEndSize (data : List Nat) : Nat := 1 + countBits (byteAt data 0)

/-- `getLostPointSize`. -/
def getLostPointSize (data : List Nat) : Nat := 1 + countBits (byteAt data 0)

/-- `getUnknownPacketSize`. -/
def getUnknownPacketSize (data : List Nat) : Nat :=
  if data.length = 0 then 1 else 1 + countBits (byteAt data 0)

/-- `getStrokeHeaderSize` of the current StrokeParser: the Intuos `0xfa`
header may carry a 9-byte pen-id extension, gated by bit 7 of the flag
byte; the Slate `ff ee ee` header and the fallback are both `1 + nbytes`. -/
def getStrokeHeaderSize (data : List Nat) : Nat :=
  let header := byteAt data 0
  let nbytes := countBits header
  let payload := (data.drop 1).take nbytes
  if 0 < payload.length ∧ payload.getD 0 0 = 0xfa then
    let base := 1 + nbytes
    let flags := if 1 < payload.length then payload.getD 1 0 else 0
    if flags &&& 0x80 ≠ 0 then base + 9 else base
  else
    1 + nbytes

/-- `parsePoint` of the current StrokeParser: bounds-guarded sequential reads
of the x, y, pressure fields selected by the 2-bit masks (the low header
bits are cleared for full-point packets). -/
def parsePoint (data : List Nat) : PointResult :=
  let header0 := byteAt data 0
  let isPoint : Bool := decide (2 < data.length ∧ byteAt data 1 = 0xff ∧ byteAt data 2 = 0xff)
  let header := if isPoint then header0 &&& 0xfc else header0
  let off := if isPoint then 3 else 1
  let xmask := (header &&& 0x0c) >>> 2
  let ymask := (header &&& 0x30) >>> 4
  let pmask := (header &&& 0xc0) >>> 6
  -- x axis
  let xres : Option Int × Option Int × Nat :=
    if xmask = 3 then
      if off + 2 ≤ data.length then
        (some ((byteAt data off ||| (byteAt data (off + 1) <<< 8) : Nat) : Int), none, off + 2)
      else (none, none, off)
    else if xmask = 2 then
      if off + 1 ≤ data.length then (none, some (signExtend8 (byteAt data off)), off + 1)
      else (none, none, off)
    else (none, none, off)
  let pos1 := xres.2.2
  -- y axis
  let yres : Option Int × Option Int × Nat :=
    if ymask = 3 then
      if pos1 + 2 ≤ data.length then
        (some ((byteAt data pos1 ||| (byteAt data (pos1 + 1) <<< 8) : Nat) : Int), none, pos1 + 2)
      else (none, none, pos1)
    else if ymask = 2 then
      if pos1 + 1 ≤ data.length then (none, some (signExtend8 (byteAt data pos1)), pos1 + 1)
      else (none, none, pos1)
    else (none, none, pos1)
  let pos2 := yres.2.2
  -- pressure axis
  let pres : Option Int × Option Int × Nat :=
    if pmask = 3 then
      if pos2 + 2 ≤ data.length then
        (some ((byteAt data pos2 ||| (byteAt data (pos2 + 1) <<< 8) : Nat) : Int), none, pos2 + 2)
      else (none, none, pos2)
    else if pmask = 2 then
      if pos2 + 1 ≤ data.length then (none, some (signExtend8 (byteAt data pos2)), pos2 + 1)
      else (none, none, pos2)
    else (none, none, pos2)
  { x := xres.1, dx := xres.2.1, y := yres.1, dy := yres.2.1, p := pres.1, dp := pres.2.1 }

/-- The POINT / DELTA branch of the `parseStrokes` loop body of the current
StrokeParser: cumulative deltas are extended or reset by absolutes, the
emitted point is baseline + cumulative delta, and — as the source comments
state — the computed point is fed back as the next baseline (`lastPoint`)
while `lastDelta` keeps the cumulative value. -/
def pointStep (data : List Nat) (s : PState) : StepResult :=
  let r := parsePoint data
  let xdx : Int × Int :=
    match r.dx, r.x with
    | some d, _ => (s.lastPoint.x, s.lastDelta.x + d)
    | none, some a => (a, 0)
    | none, none => (s.lastPoint.x, s.lastDelta.x)
  let ydy : Int × Int :=
    match r.dy, r.y with
    | some d, _ => (s.lastPoint.y, s.lastDelta.y + d)
    | none, some a => (a, 0)
    | none, none => (s.lastPoint.y, s.lastDelta.y)
  let pdp : Int × Int :=
    match r.dp, r.p with
    | some d, _ => (s.lastPoint.p, s.lastDelta.p + d)
    | none, some a => (a, 0)
    | none, none => (s.lastPoint.p, s.lastDelta.p)
  let finalRaw : RawPoint := ⟨xdx.1 + xdx.2, ydy.1 + ydy.2, pdp.1 + pdp.2⟩
  let emitted : Point :=
    ⟨finalRaw.x * pointSize, finalRaw.y * pointSize, Int.fdiv (finalRaw.p * 0x10000) pressure⟩
  .next (getPointSize data)
    { strokes := s.strokes
      current := s.current ++ [emitted]
      lastPoint := finalRaw
      lastDelta := ⟨xdx.2, ydy.2, pdp.2⟩ }

/-- One iteration of the `parseStrokes` while loop of the current
StrokeParser.  A `STROKE_END` pushes the current stroke and resets nothing
else (the source notes tuhi does not reset `last_point` or `lastDelta`);
a `STROKE_HEADER` pushes the current stroke and resets only `lastDelta`. -/
def parseStep (data : List Nat) (s : PState) : StepResult :=
  match identifyPacketType data with
  | .EOF =>
      .done (if s.current = [] then s.strokes else s.strokes ++ [s.current])
  | .STROKE_END =>
      .next (getStrokeEndSize data)
        { s with
          strokes := if s.current = [] then s.strokes else s.strokes ++ [s.current]
          current := [] }
  | .LOST_POINT =>
      .next (getLostPointSize data) s
  | .STROKE_HEADER =>
      .next (getStrokeHeaderSize data)
        { s with
          strokes := if s.current = [] then s.strokes else s.strokes ++ [s.current]
          current := []
          lastDelta := ⟨0, 0, 0⟩ }
  | .POINT => pointStep data s
  | .DELTA => pointStep data s
  | _ =>
      .next (getUnknownPacketSize data) s

/-- Fuelled driver of the `parseStrokes` while loop (every packet consumes at
least one byte, so fuel `data.length` is enough; running out of input without
an EOF marker returns the pushed strokes only, as the source does). -/
def parseLoop (fuel : Nat) (data : List Nat) (s : PState) : List (List Point) :=
  match fuel with
  | 0 => s.strokes
  | fuel + 1 =>
    if data.length = 0 then s.strokes
    else
      match parseStep data s with
      | .done out => out
      | .next sz t => parseLoop fuel (data.drop sz) t

/-- `parseStrokes` of the current StrokeParser (stroke-parser.js). -/
def parseStrokes (data : List Nat) : List (List Point) :=
  parseLoop data.length data ⟨[], [], ⟨0, 0, 0⟩, ⟨0, 0, 0⟩⟩

end StrokeParser

namespace StrokeParserProto

/-- Device pressure range (constructor of the protocol.js StrokeParser). -/
def pressure : Int := 1023

/-- Device unit scale in micrometers (constructor of the protocol.js
StrokeParser). -/
def pointSize : Int := 10

/-- `identifyPacketType` of the protocol.js StrokeParser variant: checks are
made on the raw bytes rather than on the popcount-sized payload, and the
POINT pattern is tested before the DELTA low-bits test. -/
def identifyPacketType (data : List Nat) : PacketType :=
  if data.length < 1 then .UNKNOWN
  else
    let header := byteAt data 0
    if 8 ≤ data.length ∧ data.take 8 = List.replicate 8 0xff then .EOF
    else if header = 0xfc ∧ 1 < data.length ∧ byteAt data 1 = 0xff then .STROKE_END
    else if 1 < data.length ∧ byteAt data 1 = 0xfa then .STROKE_HEADER
    else if 3 < data.length ∧ byteAt data 1 = 0xff ∧ byteAt data 2 = 0xee ∧
        byteAt data 3 = 0xee then .STROKE_HEADER
    else if 2 < data.length ∧ byteAt data 1 = 0xff ∧ byteAt data 2 = 0xff then .POINT
    else if header &&& 0x03 = 0 then .DELTA
    else .UNKNOWN

/-- `parsePoint` of the protocol.js variant: same mask scheme, but the header
low bits are not cleared and reads are not bounds-guarded (an out-of-range
read coerces to 0 through the bitwise operations). -/
def parsePoint (data : List Nat) : PointResult :=
  let header := byteAt data 0
  let isPoint : Bool := decide (2 < data.length ∧ byteAt data 1 = 0xff ∧ byteAt data 2 = 0xff)
  let off := if isPoint then 3 else 1
  let xmask := (header &&& 0x0c) >>> 2
  let ymask := (header &&& 0x30) >>> 4
  let pmask := (header &&& 0xc0) >>> 6
  let xres : Option Int × Option Int × Nat :=
    if xmask = 3 then
      (some ((byteAt data off ||| (byteAt data (off + 1) <<< 8) : Nat) : Int), none, off + 2)
    else if xmask = 2 then (none, some (signExtend8 (byteAt data off)), off + 1)
    else (none, none, off)
  let pos1 := xres.2.2
  let yres : Option Int × Option Int × Nat :=
    if ymask = 3 then
      (some ((byteAt data pos1 ||| (byteAt data (pos1 + 1) <<< 8) : Nat) : Int), none, pos1 + 2)
    else if ymask = 2 then (none, some (signExtend8 (byteAt data pos1)), pos1 + 1)
    else (none, none, pos1)
  let pos2 := yres.2.2
  let pres : Option Int × Option Int × Nat :=
    if pmask = 3 then
      (some ((byteAt data pos2 ||| (byteAt data (pos2 + 1) <<< 8) : Nat) : Int), none, pos2 + 2)
    else if pmask = 2 then (none, some (signExtend8 (byteAt data pos2)), pos2 + 1)
    else (none, none, pos2)
  { x := xres.1, dx := xres.2.1, y := yres.1, dy := yres.2.1, p := pres.1, dp := pres.2.1 }

/-- `getMaskSize` of the protocol.js variant. -/
def getMaskSize (mask : Nat) : Nat :=
  if mask = 0 then 0 else if mask = 2 then 1 else if mask = 3 then 2 else 0

/-- `getPointSize` of the protocol.js variant. -/
def getPointSize (data : List Nat) : Nat :=
  if byteAt data 1 = 0xff ∧ byteAt data 2 = 0xff then
    let header := byteAt data 0 &&& 0xfc
    3 + getMaskSize ((header &&& 0x0c) >>> 2) + getMaskSize ((header &&& 0x30) >>> 4) +
      getMaskSize ((header &&& 0xc0) >>> 6)
  else
    let header := byteAt data 0
    1 + getMaskSize ((header &&& 0x0c) >>> 2) + getMaskSize ((header &&& 0x30) >>> 4) +
      getMaskSize ((header &&& 0xc0) >>> 6)

/-- `getStrokeEndSize` of the protocol.js variant. -/
def getStrokeEndSize (data : List Nat) : Nat := 1 + countBits (byteAt data 0)

/-- `getStrokeHeaderSize` of the protocol.js variant: Intuos `0xfa` headers
sized by popcount plus an optional 9-byte pen id; Slate headers fixed at 6. -/
def getStrokeHeaderSize (data : List Nat) : Nat :=
  if byteAt data 1 = 0xfa then
    let header := byteAt data 0
    let nbytes := countBits header
    let size := 1 + nbytes
    if size < data.length ∧ byteAt data size = 0xff then size + 9 else size
  else 6

/-- The POINT / DELTA branch of the protocol.js variant's loop: absolutes
replace the baseline and zero the delta, deltas extend the accumulator,
and the emitted point is baseline + cumulative delta (the computed point is
not fed back into the baseline). -/
def pointStep (data : List Nat) (s : PState) : StepResult :=
  let r := parsePoint data
  let xdx : Int × Int :=
    match r.x, r.dx with
    | some a, _ => (a, 0)
    | none, some d => (s.lastPoint.x, s.lastDelta.x + d)
    | none, none => (s.lastPoint.x, s.lastDelta.x)
  let ydy : Int × Int :=
    match r.y, r.dy with
    | some a, _ => (a, 0)
    | none, some d => (s.lastPoint.y, s.lastDelta.y + d)
    | none, none => (s.lastPoint.y, s.lastDelta.y)
  let pdp : Int × Int :=
    match r.p, r.dp with
    | some a, _ => (a, 0)
    | none, some d => (s.lastPoint.p, s.lastDelta.p + d)
    | none, none => (s.lastPoint.p, s.lastDelta.p)
  let emitted : Point :=
    ⟨(xdx.1 + xdx.2) * pointSize, (ydy.1 + ydy.2) * pointSize,
     Int.fdiv ((pdp.1 + pdp.2) * 0x10000) pressure⟩
  .next (getPointSize data)
    { strokes := s.strokes
      current := s.current ++ [emitted]
      lastPoint := ⟨xdx.1, ydy.1, pdp.1⟩
      lastDelta := ⟨xdx.2, ydy.2, pdp.2⟩ }

/-- One iteration of the protocol.js variant's `parseStrokes` loop: a
`STROKE_END` resets the delta accumulator, a `STROKE_HEADER` resets both the
delta accumulator and the absolute baseline; unknown packets skip one byte. -/
def parseStep (data : List Nat) (s : PState) : StepResult :=
  match identifyPacketType data with
  | .EOF =>
      .done (if s.current = [] then s.strokes else s.strokes ++ [s.current])
  | .STROKE_END =>
      .next (getStrokeEndSize data)
        { s with
          strokes := if s.current = [] then s.strokes else s.strokes ++ [s.current]
          current := []
          lastDelta := ⟨0, 0, 0⟩ }
  | .STROKE_HEADER =>
      .next (getStrokeHeaderSize data)
        { s with
          strokes := if s.current = [] then s.strokes else s.strokes ++ [s.current]
          current := []
          lastDelta := ⟨0, 0, 0⟩
          lastPoint := ⟨0, 0, 0⟩ }
  | .POINT => pointStep data s
  | .DELTA => pointStep data s
  | _ => .next 1 s

/-- Fuelled driver of the protocol.js variant's loop. -/
def parseLoop (fuel : Nat) (data : List Nat) (s : PState) : List (List Point) :=
  match fuel with
  | 0 => s.strokes
  | fuel + 1 =>
    if data.length = 0 then s.strokes
    else
      match parseStep data s with
      | .done out => out
      | .next sz t => parseLoop fuel (data.drop sz) t

/-- `parseStrokes` of the protocol.js StrokeParser variant. -/
def parseStrokes (data : List Nat) : List (List Point) :=
  parseLoop data.length data ⟨[], [], ⟨0, 0, 0⟩, ⟨0, 0, 0⟩⟩

end StrokeParserProto

/-- A parsed command envelope, as returned by `parseMessage`. -/
structure Message where
  opcode : Nat
  length : Nat
  payload : List Nat
deriving DecidableEq, Repr

/-- Protocol variant negotiated during registration. -/
inductive ProtocolVersion
  | SPARK
  | SLATE
  | INTUOS_PRO
deriving DecidableEq, Repr

namespace WacomProtocol

/-- `createMessage`: NordicData envelope `[opcode, length, ...data]`. -/
def createMessage (opcode : Nat) (data : List Nat) : List Nat :=
  opcode :: data.length :: data

/-- `parseMessage`: rejects inputs shorter than 2 bytes, reads the opcode and
length bytes, and takes the payload with `slice(2, 2 + length)` (which clamps
at the end of the input). -/
def parseMessage (data : List Nat) : Except String Message :=
  if data.length < 2 then .error "Invalid message format"
  else
    let opcode := byteAt data 0
    let length := byteAt data 1
    let payload := (data.drop 2).take length
    .ok { opcode := opcode, length := length, payload := payload }

/-- `deleteOldestFile`, as a function of the `0xb3` reply the transport
delivers (`none` models the wait timing out; the rejection message is the
one produced by `WacomBLE.waitForReply`).  Status `0x01` and `0x02` are
swallowed, any other non-zero status raises, and the catch clause re-raises
unless the message contains the exact substrings the source tests for. -/
def deleteOldestFile (reply : Option (List Nat)) : Except String Unit :=
  let attempt : Except String Unit :=
    match reply with
    | none => .error ("Timeout waiting for reply with opcode 0x" ++ jsHex 0xb3)
    | some r =>
      if r.length < 3 ∨ byteAt r 2 ≠ 0 then
        let errorCode := if 2 < r.length then byteAt r 2 else byteAt r 1
        if errorCode = 0x1 then .ok ()
        else if errorCode = 0x2 then .ok ()
        else .error ("Delete failed with error code: 0x" ++ jsHex errorCode)
      else .ok ()
  match attempt with
  | .ok _ => .ok ()
  | .error msg =>
    if jsIncludes msg "timeout" || jsIncludes msg "No response" then .ok ()
    else .error msg

/-- `registerWaitForButton`, as a function of which confirmation opcode
arrives within its wait: the `0xe4` wait is tried first, then `0x53`. -/
def registerWaitForButton (e4Arrives x53Arrives : Bool) : Except String ProtocolVersion :=
  if e4Arrives then .ok .SPARK
  else if x53Arrives then .ok .INTUOS_PRO
  else .error "Timeout waiting for button press"

end WacomProtocol

namespace WacomBLE

/-- The Slate/Intuos branch of `registerDevice` (part_005): the negotiated
variant is `INTUOS_PRO` when the button wait reported it, else `SLATE`. -/
def slateFamilyVariant (wait : ProtocolVersion) : ProtocolVersion :=
  if wait = .INTUOS_PRO then .INTUOS_PRO else .SLATE

/-- State of a `WacomBLE` session relevant to reply correlation and bulk
transfer: the per-opcode pending-waiter map (waiters identified by a token),
the bulk transfer buffer and completion flag, and a log of deliveries made
to resolved waiters. -/
structure BLEState where
  pendingReplies : Nat → Option Nat
  fileTransferBuffer : List Nat
  fileTransferComplete : Bool
  resolved : List (Nat × List Nat)

/-- `waitForReply`: registering a waiter for an opcode.  If a waiter is
already pending for that opcode the call rejects at once with the busy
message and the state is untouched; otherwise the waiter is stored. -/
def waitForReply (st : BLEState) (op wid : Nat) : BLEState × Except String Unit :=
  if (st.pendingReplies op).isSome then
    (st, .error ("Already waiting for reply with opcode 0x" ++ jsHex op))
  else
    ({ st with pendingReplies := fun o => if o = op then some wid else st.pendingReplies o },
     .ok ())

/-- The timer body of `waitForReply`: on timeout the waiter is deleted (and
its promise rejected with the timeout message). -/
def fireTimeout (st : BLEState) (op : Nat) : BLEState :=
  { st with pendingReplies := fun o => if o = op then none else st.pendingReplies o }

/-- Delivery to a pending waiter: the handler stored by `waitForReply`
deletes itself from the map and resolves with the data; with no waiter the
notification is dropped. -/
def forwardToWaiter (st : BLEState) (op : Nat) (data : List Nat) : BLEState :=
  match st.pendingReplies op with
  | some wid =>
      { st with
        pendingReplies := fun o => if o = op then none else st.pendingReplies o
        resolved := (wid, data) :: st.resolved }
  | none => st

/-- `handleCommandResponse`: opcode `0xc8` with at least 3 bytes is
intercepted — `0xbe` clears the transfer buffer and completion flag, `0xed`
sets the completion flag — before the envelope is forwarded to any pending
waiter; everything else is forwarded directly. -/
def handleCommandResponse (st : BLEState) (data : List Nat) : BLEState :=
  if data.length < 1 then st
  else if byteAt data 0 = 0xc8 ∧ 2 < data.length then
    if byteAt data 2 = 0xbe then
      forwardToWaiter { st with fileTransferBuffer := [], fileTransferComplete := false }
        (byteAt data 0) data
    else if byteAt data 2 = 0xed then
      forwardToWaiter { st with fileTransferComplete := true } (byteAt data 0) data
    else forwardToWaiter st (byteAt data 0) data
  else forwardToWaiter st (byteAt data 0) data

end WacomBLE

namespace SmartPadDecompressor

/-- The four 16-bit lanes of one generation of the decompressor's history
(stored, like `workBuffer`, as sign-extended values). -/
structure Lanes where
  l0 : Int
  l1 : Int
  l2 : Int
  l3 : Int
deriving DecidableEq, Repr

/-- JavaScript `v & 0xffff` on an int32 value: the non-negative residue. -/
def mask16 (v : Int) : Int := v % 65536

/-- JavaScript `(v << 16) >> 16`: sign extension of the low 16 bits. -/
def signExtend16 (v : Int) : Int :=
  if v % 65536 < 32768 then v % 65536 else v % 65536 - 65536

/-- Result of decoding one lane of a compressed unit. -/
structure LaneResult where
  cur : Int
  t1 : Int
  idx : Nat
deriving Repr

/-- One lane of a compressed unit: 2-bit selector 0/1 keeps the linear
prediction `2*prev - prev2`, 2 applies an 8-bit signed delta to it, 3 reads
a little-endian 16-bit literal and rewrites this lane's `t1` history (the
source also rewrites `t2+i`, but that slot is fully overwritten before it is
next read, so it is not carried). -/
def laneStep (data : List Nat) (idx : Nat) (bitsel : Nat) (prev prev2 : Int) : LaneResult :=
  let predicted := mask16 (2 * mask16 prev - mask16 prev2)
  if bitsel = 2 then
    let diff := signExtend8 (byteAt data idx)
    let value := mask16 (predicted + diff)
    { cur := signExtend16 (mask16 value), t1 := prev, idx := idx + 1 }
  else if bitsel = 3 then
    let shData := ((byteAt data (idx + 1) <<< 8 ||| byteAt data idx : Nat) : Int) % 65536
    let signed := signExtend16 shData
    { cur := signExtend16 (mask16 shData), t1 := signed, idx := idx + 2 }
  else
    { cur := signExtend16 (mask16 predicted), t1 := prev, idx := idx }

/-- The two output bytes of one lane: the 16-bit value little-endian. -/
def outBytes (c : Int) : List Nat :=
  let v := (mask16 c).toNat
  [v % 256, v / 256 % 256]

/-- Result of one compressed unit: the new current generation, the
(possibly literal-updated) previous generation, the read index after the
unit, and the 8 emitted bytes. -/
structure UnitResult where
  g1 : Lanes
  g2 : Lanes
  idx : Nat
  out : List Nat
deriving Repr

/-- One compressed unit: the tag byte's four 2-bit fields select each lane's
mode; the four lanes' 16-bit values are emitted little-endian in lane order. -/
def unitStep (data : List Nat) (idx : Nat) (g1 g2 : Lanes) : UnitResult :=
  let tag := byteAt data idx
  let a := laneStep data (idx + 1) (tag &&& 0x03) g1.l0 g2.l0
  let b := laneStep data a.idx ((tag >>> 2) &&& 0x03) g1.l1 g2.l1
  let c := laneStep data b.idx ((tag >>> 4) &&& 0x03) g1.l2 g2.l2
  let d := laneStep data c.idx ((tag >>> 6) &&& 0x03) g1.l3 g2.l3
  { g1 := ⟨a.cur, b.cur, c.cur, d.cur⟩
    g2 := ⟨a.t1, b.t1, c.t1, d.t1⟩
    idx := d.idx
    out := outBytes a.cur ++ outBytes b.cur ++ outBytes c.cur ++ outBytes d.cur }

/-- Fuelled driver of the `decompressFrom` while loop (the read index grows
by at least one byte per unit, so fuel `data.length` is enough). -/
def decompressLoop (data : List Nat) (fuel readIndex : Nat) (g1 g2 : Lanes)
    (acc : List Nat) : List Nat :=
  match fuel with
  | 0 => acc
  | fuel + 1 =>
    if readIndex < data.length then
      let u := unitStep data readIndex g1 g2
      decompressLoop data fuel u.idx u.g1 u.g2 (acc ++ u.out)
    else acc

/-- `decompressFrom`: decode compressed units from `readIndex` until the
input is exhausted, starting from all-zero history. -/
def decompressFrom (data : List Nat) (readIndex : Nat) : List Nat :=
  decompressLoop data data.length readIndex ⟨0, 0, 0, 0⟩ ⟨0, 0, 0, 0⟩ []

end SmartPadDecompressor

namespace SVGConverter

/-- `basePenWidth` (0.4, exact). -/
def basePenWidth : ℚ := 4 / 10

/-- `penPressureWidthFactor` (0.2, exact). -/
def penPressureWidthFactor : ℚ := 2 / 10

/-- `widthPrecision`. -/
def widthPrecision : ℚ := 10

/-- The pen width computed for one point from its pressure:
`basePenWidth + penPressureWidthFactor * ((p - 0x8000) / 0x8000)`. -/
def strokeWidthOf (p : Int) : ℚ :=
  basePenWidth + penPressureWidthFactor * (((p : ℚ) - 0x8000) / 0x8000)

/-- The quantized pen width: `Math.floor(w * widthPrecision) / widthPrecision`. -/
def quantWidth (p : Int) : ℚ :=
  ((⌊strokeWidthOf p * widthPrecision⌋ : Int) : ℚ) / widthPrecision

/-- The path-segmentation loop of `SVGConverter.convert` over one stroke:
a point whose quantized width differs from the current path's width flushes
the open path (if any) and starts a new one, otherwise it extends the open
path; the last open path is flushed at the end.  (The source's NaN/Infinity
skip cannot fire for rational coordinates and does not depend on the point,
so it is not represented.) -/
def segLoop : List Point → List (List Point) → List Point → Option ℚ → List (List Point)
  | [], segs, cur, _ => if cur = [] then segs else segs ++ [cur]
  | pt :: rest, segs, cur, curW =>
    let w := quantWidth pt.p
    if curW = some w then segLoop rest segs (cur ++ [pt]) curW
    else if cur = [] then segLoop rest segs [pt] (some w)
    else segLoop rest (segs ++ [cur]) [pt] (some w)

/-- The path segments `SVGConverter.convert` emits for one stroke, each as
the list of points whose coordinates the path's `M`/`L` commands carry. -/
def convertStrokeSegments (stroke : List Point) : List (List Point) :=
  segLoop stroke [] [] none

end SVGConverter

/-
  Concrete inputs used by the theorems below.
-/

/-- A direct-format stroke stream: one full point packet carrying an absolute
x of 1000 (header 0x0c, marker ff ff, little-endian 03e8), two delta packets
each encoding +1 on the x axis (header 0x08, delta byte 0x01), then a
stroke-end marker so the stroke is flushed. -/
def c1Stream : List Nat :=
  [0x0c, 0xff, 0xff, 0xe8, 0x03,
   0x08, 0x01,
   0x08, 0x01,
   0xfc, 0xff, 0xff, 0xff, 0xff, 0xff, 0xff]

/-- A stroke-end marker: 0xfc followed by six 0xff bytes. -/
def strokeEndMarker : List Nat := [0xfc, 0xff, 0xff, 0xff, 0xff, 0xff, 0xff]

/-- A Slate-family stroke-header marker: a header byte with three set bits
(low bits non-zero) whose payload is ff ee ee. -/
def slateHeaderMarker : List Nat := [0x07, 0xff, 0xee, 0xee]

/-- A mid-stream parser state: one point in the current stroke, absolute
baseline x = 1001, cumulative delta x = 1 (as reached after an absolute
x = 1000 followed by a +1 delta). -/
def c2State : PState :=
  { strokes := []
    current := [⟨10010, 0, 0⟩]
    lastPoint := ⟨1001, 0, 0⟩
    lastDelta := ⟨1, 0, 0⟩ }

/-- A session state with one pending waiter, registered for opcode 0xc8
under token 7, and a non-empty transfer buffer. -/
def demoState : WacomBLE.BLEState :=
  { pendingReplies := fun o => if o = 0xc8 then some 7 else none
    fileTransferBuffer := [1, 2, 3]
    fileTransferComplete := false
    resolved := [] }

/-- A five-point stroke whose pressures quantize to pen widths
0.3, 0.3, 0.5, 0.5, 0.5. -/
def c9Stroke : List Point :=
  [⟨0, 0, 16384⟩, ⟨100, 100, 16384⟩, ⟨200, 200, 49152⟩,
   ⟨300, 300, 49152⟩, ⟨400, 400, 49152⟩]

/-
  Helper lemmas shared by the claim theorems.
-/

/-- Delivery always leaves no pending waiter for the delivered opcode
(either there was none, or the handler removed itself). -/
theorem forward_removes (st : WacomBLE.BLEState) (op : Nat) (data : List Nat) :
    (WacomBLE.forwardToWaiter st op data).pendingReplies op = none := by
  unfold WacomBLE.forwardToWaiter
  split
  · simp
  · assumption

/-- Delivery does not touch the bulk transfer buffer. -/
theorem forward_buffer (st : WacomBLE.BLEState) (op : Nat) (data : List Nat) :
    (WacomBLE.forwardToWaiter st op data).fileTransferBuffer = st.fileTransferBuffer := by
  unfold WacomBLE.forwardToWaiter
  split <;> rfl

/-- Delivery does not touch the bulk transfer completion flag. -/
theorem forward_complete (st : WacomBLE.BLEState) (op : Nat) (data : List Nat) :
    (WacomBLE.forwardToWaiter st op data).fileTransferComplete = st.fileTransferComplete := by
  unfold WacomBLE.forwardToWaiter
  split <;> rfl

/-- If a waiter is pending for the opcode, delivery resolves it with the
full envelope bytes. -/
theorem forward_resolves (st : WacomBLE.BLEState) (op : Nat) (data : List Nat) (w : Nat)
    (h : st.pendingReplies op = some w) :
    (w, data) ∈ (WacomBLE.forwardToWaiter st op data).resolved := by
  simp [WacomBLE.forwardToWaiter, h]

/-- Each unit of the decompressor emits exactly 8 bytes. -/
theorem unitStep_out_length (data : List Nat) (idx : Nat)
    (g1 g2 : SmartPadDecompressor.Lanes) :
    (SmartPadDecompressor.unitStep data idx g1 g2).out.length = 8 := rfl

/-- The decompression loop preserves divisibility of the output length by 8. -/
theorem decompressLoop_len_aux (data : List Nat) :
    ∀ (fuel readIndex : Nat) (g1 g2 : SmartPadDecompressor.Lanes) (acc : List Nat),
      acc.length % 8 = 0 →
      (SmartPadDecompressor.decompressLoop data fuel readIndex g1 g2 acc).length % 8 = 0 := by
  intro fuel
  induction fuel with
  | zero =>
    intro readIndex g1 g2 acc h
    simpa [SmartPadDecompressor.decompressLoop] using h
  | succ n ih =>
    intro readIndex g1 g2 acc h
    rw [SmartPadDecompressor.decompressLoop]
    split
    · apply ih
      rw [List.length_append, unitStep_out_length]
      omega
    · exact h

/-
  The claim theorems.
-/

/-- Claim C1: the claim states that after one absolute point packet at
x = 1000, the Nth consecutive +1 x-delta packet decodes to
x = (1000 + N) * pointSize.  On `c1Stream` (N = 2) the current
stroke-parser.js decoder emits 10030 for the second delta packet — it feeds
the computed point back into `lastPoint` while also retaining the cumulative
delta, so deltas are double-counted — whereas the protocol.js variant of the
same function, which the claim also cites, emits the claimed 10020. -/
theorem claim1_delta_accumulation_eval :
    StrokeParser.parseStrokes c1Stream =
      [[⟨10000, 0, 0⟩, ⟨10010, 0, 0⟩, ⟨10030, 0, 0⟩]] ∧
    StrokeParserProto.parseStrokes c1Stream =
      [[⟨10000, 0, 0⟩, ⟨10010, 0, 0⟩, ⟨10020, 0, 0⟩]] :=
  ⟨by decide, by decide⟩

/-- Claim C2 (counterexample): processing a stroke-end marker in the current
stroke-parser.js decoder does NOT reset the running delta accumulator to
zero — from a state with cumulative delta (1,0,0) the delta survives the
marker — contradicting the claim that only the delta resets. -/
theorem claim2_stroke_end_counterexample :
    StrokeParser.identifyPacketType strokeEndMarker = .STROKE_END ∧
    StrokeParser.parseStep strokeEndMarker c2State =
      .next 7
        { strokes := [[⟨10010, 0, 0⟩]]
          current := []
          lastPoint := ⟨1001, 0, 0⟩
          lastDelta := ⟨1, 0, 0⟩ } ∧
    (⟨1, 0, 0⟩ : RawPoint) ≠ ⟨0, 0, 0⟩ :=
  ⟨by decide, by decide, by decide⟩

/-- Claim C2 (amended): in the current stroke-parser.js decoder a stroke-end
marker closes the current stroke and resets neither the delta accumulator
nor the absolute baseline; a stroke-header marker closes the current stroke
and resets only the delta accumulator, leaving the absolute baseline
unchanged. -/
theorem claim2_marker_frame_effects :
    ∀ (data : List Nat) (s : PState),
      (StrokeParser.identifyPacketType data = .STROKE_END →
        StrokeParser.parseStep data s =
          .next (StrokeParser.getStrokeEndSize data)
            { strokes := if s.current = [] then s.strokes else s.strokes ++ [s.current]
              current := []
              lastPoint := s.lastPoint
              lastDelta := s.lastDelta }) ∧
      (StrokeParser.identifyPacketType data = .STROKE_HEADER →
        StrokeParser.parseStep data s =
          .next (StrokeParser.getStrokeHeaderSize data)
            { strokes := if s.current = [] then s.strokes else s.strokes ++ [s.current]
              current := []
              lastPoint := s.lastPoint
              lastDelta := ⟨0, 0, 0⟩ }) := by
  intro data s
  constructor
  · intro h
    simp only [StrokeParser.parseStep, h]
  · intro h
    simp only [StrokeParser.parseStep, h]

/-- Claim C2 witness: the amended frame effects at a concrete stroke-end
marker, a concrete Slate stroke-header marker, and a concrete mid-stream
state. -/
theorem claim2_marker_frame_effects_witness :
    StrokeParser.identifyPacketType strokeEndMarker = .STROKE_END ∧
    StrokeParser.parseStep strokeEndMarker c2State =
      .next (StrokeParser.getStrokeEndSize strokeEndMarker)
        { strokes := if c2State.current = [] then c2State.strokes
                     else c2State.strokes ++ [c2State.current]
          current := []
          lastPoint := c2State.lastPoint
          lastDelta := c2State.lastDelta } ∧
    StrokeParser.identifyPacketType slateHeaderMarker = .STROKE_HEADER ∧
    StrokeParser.parseStep slateHeaderMarker c2State =
      .next (StrokeParser.getStrokeHeaderSize slateHeaderMarker)
        { strokes := if c2State.current = [] then c2State.strokes
                     else c2State.strokes ++ [c2State.current]
          current := []
          lastPoint := c2State.lastPoint
          lastDelta := ⟨0, 0, 0⟩ } :=
  ⟨by decide, (claim2_marker_frame_effects strokeEndMarker c2State).1 (by decide),
   by decide, (claim2_marker_frame_effects slateHeaderMarker c2State).2 (by decide)⟩

/-- Claim C3: the envelope round-trips — for any opcode and any payload of
at most 255 bytes, parsing the created message recovers the opcode, a length
field equal to the payload size, and the payload byte-for-byte. -/
theorem claim3_envelope_roundtrip (opcode : Nat) (payload : List Nat)
    (_h : payload.length ≤ 255) :
    WacomProtocol.parseMessage (WacomProtocol.createMessage opcode payload) =
      .ok ⟨opcode, payload.length, payload⟩ := by
  simp [WacomProtocol.createMessage, WacomProtocol.parseMessage, byteAt, List.take_length]

/-- Claim C3 witness: the round-trip at opcode 0xb1 with payload [0x01]. -/
theorem claim3_envelope_roundtrip_witness :
    ([0x01] : List Nat).length ≤ 255 ∧
    WacomProtocol.parseMessage (WacomProtocol.createMessage 0xb1 [0x01]) =
      .ok ⟨0xb1, 1, [0x01]⟩ :=
  ⟨by decide, claim3_envelope_roundtrip 0xb1 [0x01] (by decide)⟩

/-- Claim C4 (counterexample): the decoded payload does NOT always have as
many bytes as the declared length byte — on the truncated input
[0x01, 0x05, 0xaa] the declared length is 5 but the payload has 1 byte,
because `slice` clamps at the end of the input. -/
theorem claim4_truncation_counterexample :
    WacomProtocol.parseMessage [0x01, 0x05, 0xaa] =
      .ok ⟨0x01, 0x05, [0xaa]⟩ ∧
    ¬ (([0xaa] : List Nat).length = 0x05) :=
  ⟨rfl, by decide⟩

/-- Claim C4 (amended): for every input of at least 2 bytes the decoder
succeeds and the payload length is `min length (input.length - 2)` — equal
to the declared length exactly when the input is not truncated. -/
theorem claim4_length_invariant (data : List Nat) (h : 2 ≤ data.length) :
    ∃ m, WacomProtocol.parseMessage data = .ok m ∧ m.length = byteAt data 1 ∧
      m.payload.length = min m.length (data.length - 2) := by
  refine ⟨⟨byteAt data 0, byteAt data 1, (data.drop 2).take (byteAt data 1)⟩, ?_, rfl, ?_⟩
  · rw [WacomProtocol.parseMessage, if_neg (by omega)]
  · simp [List.length_take, List.length_drop]

/-- Claim C4 witness: the amended invariant at the truncated input
[0x01, 0x05, 0xaa]. -/
theorem claim4_length_invariant_witness :
    2 ≤ ([0x01, 0x05, 0xaa] : List Nat).length ∧
    ∃ m, WacomProtocol.parseMessage [0x01, 0x05, 0xaa] = .ok m ∧
      m.length = byteAt [0x01, 0x05, 0xaa] 1 ∧
      m.payload.length = min m.length (([0x01, 0x05, 0xaa] : List Nat).length - 2) :=
  ⟨by decide, claim4_length_invariant [0x01, 0x05, 0xaa] (by decide)⟩

/-- Claim C5: at most one pending waiter per opcode — a second concurrent
wait on a busy opcode rejects immediately with the busy message and leaves
the state (including the existing waiter) untouched; firing a waiter's
timeout removes it; dispatching any notification leaves no pending waiter
for the delivered opcode (single-shot resolution). -/
theorem claim5_single_waiter :
    (∀ (st : WacomBLE.BLEState) (op wid : Nat), (st.pendingReplies op).isSome →
      WacomBLE.waitForReply st op wid =
        (st, .error ("Already waiting for reply with opcode 0x" ++ jsHex op))) ∧
    (∀ (st : WacomBLE.BLEState) (op : Nat),
      (WacomBLE.fireTimeout st op).pendingReplies op = none) ∧
    (∀ (st : WacomBLE.BLEState) (data : List Nat), 1 ≤ data.length →
      (WacomBLE.handleCommandResponse st data).pendingReplies (byteAt data 0) = none) := by
  refine ⟨?_, ?_, ?_⟩
  · intro st op wid h
    simp [WacomBLE.waitForReply, h]
  · intro st op
    simp [WacomBLE.fireTimeout]
  · intro st data h
    unfold WacomBLE.handleCommandResponse
    rw [if_neg (by omega)]
    split
    · split
      · exact forward_removes _ _ _
      · split
        · exact forward_removes _ _ _
        · exact forward_removes _ _ _
    · exact forward_removes _ _ _

/-- Claim C5 witness: the busy rejection, the timeout removal and the
dispatch removal at the concrete session state `demoState`. -/
theorem claim5_single_waiter_witness :
    (demoState.pendingReplies 0xc8).isSome ∧
    WacomBLE.waitForReply demoState 0xc8 9 =
      (demoState, .error ("Already waiting for reply with opcode 0x" ++ jsHex 0xc8)) ∧
    (WacomBLE.fireTimeout demoState 0xc8).pendingReplies 0xc8 = none ∧
    (WacomBLE.handleCommandResponse demoState [0xb3, 0x01, 0x00]).pendingReplies
      (byteAt [0xb3, 0x01, 0x00] 0) = none :=
  ⟨rfl, claim5_single_waiter.1 demoState 0xc8 9 rfl,
   claim5_single_waiter.2.1 demoState 0xc8,
   claim5_single_waiter.2.2 demoState [0xb3, 0x01, 0x00] (by decide)⟩

/-- Claim C6: an 0xc8 envelope with at least 3 bytes updates the bulk
transfer accumulator even with no waiter registered — payload byte 0xbe
clears the buffer and the completion flag, payload byte 0xed sets the
completion flag — and in both cases a pending 0xc8 waiter (if any) is then
resolved with the envelope. -/
theorem claim6_bulk_lifecycle :
    ∀ (st : WacomBLE.BLEState) (data : List Nat),
      byteAt data 0 = 0xc8 → 3 ≤ data.length →
      ((byteAt data 2 = 0xbe →
          (WacomBLE.handleCommandResponse st data).fileTransferBuffer = [] ∧
          (WacomBLE.handleCommandResponse st data).fileTransferComplete = false ∧
          ∀ w, st.pendingReplies 0xc8 = some w →
            (w, data) ∈ (WacomBLE.handleCommandResponse st data).resolved) ∧
       (byteAt data 2 = 0xed →
          (WacomBLE.handleCommandResponse st data).fileTransferComplete = true ∧
          (WacomBLE.handleCommandResponse st data).fileTransferBuffer =
            st.fileTransferBuffer ∧
          ∀ w, st.pendingReplies 0xc8 = some w →
            (w, data) ∈ (WacomBLE.handleCommandResponse st data).resolved)) := by
  intro st data h0 hlen
  have h1 : ¬ data.length < 1 := by omega
  have h2 : 2 < data.length := by omega
  constructor
  · intro hbe
    have hrw : WacomBLE.handleCommandResponse st data =
        WacomBLE.forwardToWaiter
          { st with fileTransferBuffer := [], fileTransferComplete := false } 0xc8 data := by
      unfold WacomBLE.handleCommandResponse
      simp [h0, h1, h2, hbe]
    refine ⟨?_, ?_, ?_⟩
    · rw [hrw, forward_buffer]
    · rw [hrw, forward_complete]
    · intro w hw
      rw [hrw]
      exact forward_resolves _ _ _ _ hw
  · intro hed
    have hrw : WacomBLE.handleCommandResponse st data =
        WacomBLE.forwardToWaiter { st with fileTransferComplete := true } 0xc8 data := by
      unfold WacomBLE.handleCommandResponse
      simp [h0, h1, h2, hed]
    refine ⟨?_, ?_, ?_⟩
    · rw [hrw, forward_complete]
    · rw [hrw, forward_buffer]
    · intro w hw
      rw [hrw]
      exact forward_resolves _ _ _ _ hw

/-- Claim C6 witness: both lifecycle envelopes dispatched to `demoState`
(which has a pending 0xc8 waiter under token 7). -/
theorem claim6_bulk_lifecycle_witness :
    ((WacomBLE.handleCommandResponse demoState [0xc8, 0x01, 0xbe]).fileTransferBuffer = [] ∧
     (WacomBLE.handleCommandResponse demoState [0xc8, 0x01, 0xbe]).fileTransferComplete = false ∧
     (7, [0xc8, 0x01, 0xbe]) ∈
       (WacomBLE.handleCommandResponse demoState [0xc8, 0x01, 0xbe]).resolved) ∧
    ((WacomBLE.handleCommandResponse demoState [0xc8, 0x01, 0xed]).fileTransferComplete = true ∧
     (WacomBLE.handleCommandResponse demoState [0xc8, 0x01, 0xed]).fileTransferBuffer =
       demoState.fileTransferBuffer ∧
     (7, [0xc8, 0x01, 0xed]) ∈
       (WacomBLE.handleCommandResponse demoState [0xc8, 0x01, 0xed]).resolved) := by
  have hbe := (claim6_bulk_lifecycle demoState [0xc8, 0x01, 0xbe] rfl (by decide)).1 rfl
  have hed := (claim6_bulk_lifecycle demoState [0xc8, 0x01, 0xed] rfl (by decide)).2 rfl
  exact ⟨⟨hbe.1, hbe.2.1, hbe.2.2 7 rfl⟩, ⟨hed.1, hed.2.1, hed.2.2 7 rfl⟩⟩

/-- Claim C7: during deleteOldestFile the statuses 0x01 and 0x02 (in
particular the reply [0xb3, 0x01, 0x02]) are swallowed as success and other
non-zero statuses raise — but a timeout is NOT tolerated: the wait rejects
with "Timeout waiting for reply with opcode 0xb3", which contains neither of
the case-sensitive substrings ("timeout", "No response") the catch clause
tests for, so the error is re-raised, contradicting the claim and the
source's own comments ("Spark devices don't require a reply, so timeout is
okay"). -/
theorem claim7_delete_tolerance_eval :
    WacomProtocol.deleteOldestFile (some [0xb3, 0x01, 0x01]) = .ok () ∧
    WacomProtocol.deleteOldestFile (some [0xb3, 0x01, 0x02]) = .ok () ∧
    WacomProtocol.deleteOldestFile (some [0xb3, 0x01, 0x03]) =
      .error "Delete failed with error code: 0x3" ∧
    WacomProtocol.deleteOldestFile none =
      .error "Timeout waiting for reply with opcode 0xb3" :=
  ⟨rfl, rfl, rfl, rfl⟩

/-- Claim C8: the button wait resolves INTUOS_PRO when only opcode 0x53
arrives, resolves the Slate-family default (SPARK from the wait itself,
mapped to SLATE by the Slate/Intuos branch of registerDevice) when opcode
0xe4 arrives, and rejects with the button-press timeout when neither
arrives. -/
theorem claim8_button_variant :
    WacomProtocol.registerWaitForButton false true = .ok .INTUOS_PRO ∧
    WacomProtocol.registerWaitForButton true false = .ok .SPARK ∧
    (WacomProtocol.registerWaitForButton true false).map WacomBLE.slateFamilyVariant =
      .ok .SLATE ∧
    WacomProtocol.registerWaitForButton false false =
      .error "Timeout waiting for button press" :=
  ⟨rfl, rfl, rfl, rfl⟩

/-- Claim C9: a stroke whose quantized pen widths are
[0.3, 0.3, 0.5, 0.5, 0.5] renders as exactly two path segments, the first
containing the first two points and the second the remaining three. -/
theorem claim9_renderer_segments (stroke : List Point)
    (h : stroke.map (fun pt => SVGConverter.quantWidth pt.p) =
      [3/10, 3/10, 1/2, 1/2, 1/2]) :
    SVGConverter.convertStrokeSegments stroke = [stroke.take 2, stroke.drop 2] := by
  obtain ⟨a, b, c, d, e, rfl⟩ : ∃ a b c d e, stroke = [a, b, c, d, e] := by
    have hlen : stroke.length = 5 := by
      have := congrArg List.length h
      simpa using this
    match stroke, hlen with
    | [a, b, c, d, e], _ => exact ⟨a, b, c, d, e, rfl⟩
  simp only [List.map_cons, List.map_nil, List.cons.injEq, and_true] at h
  obtain ⟨h1, h2, h3, h4, h5⟩ := h
  simp only [SVGConverter.convertStrokeSegments, SVGConverter.segLoop, h1, h2, h3, h4, h5]
  simp
  intro hq
  norm_num at hq

/-- Claim C9 witness: the two-segment rendering of the concrete stroke
`c9Stroke` (pressures 16384 and 49152 quantize to widths 0.3 and 0.5). -/
theorem claim9_renderer_segments_witness :
    c9Stroke.map (fun pt => SVGConverter.quantWidth pt.p) =
      [3/10, 3/10, 1/2, 1/2, 1/2] ∧
    SVGConverter.convertStrokeSegments c9Stroke = [c9Stroke.take 2, c9Stroke.drop 2] := by
  have hmap : c9Stroke.map (fun pt => SVGConverter.quantWidth pt.p) =
      [3/10, 3/10, 1/2, 1/2, 1/2] := by
    norm_num [c9Stroke, SVGConverter.quantWidth, SVGConverter.strokeWidthOf,
      SVGConverter.basePenWidth, SVGConverter.penPressureWidthFactor,
      SVGConverter.widthPrecision]
  exact ⟨hmap, claim9_renderer_segments c9Stroke hmap⟩

/-- Claim C10: for every input byte array and every starting offset, the
container decompressor's output length is a multiple of 8 (each compressed
unit appends the four lanes' 16-bit values as 8 little-endian bytes), so
the output always satisfies the `length % 8 == 0` precondition the
downstream container parsers check. -/
theorem claim10_decompress_multiple_of_eight (data : List Nat) (readIndex : Nat) :
    (SmartPadDecompressor.decompressFrom data readIndex).length % 8 = 0 :=
  decompressLoop_len_aux data data.length readIndex ⟨0, 0, 0, 0⟩ ⟨0, 0, 0, 0⟩ [] rfl

end Wacom
